import Mathlib

/-!
Shallow embedding of the security / session-lifecycle core of the Libsys
Django library-management system, and proofs of its specified properties.

Time is modelled as an integer number of seconds; Python `timedelta(minutes=m)`
becomes `60 * m` seconds and `timedelta(days=d)` becomes `86400 * d` seconds.
Django model instances become Lean structures; methods that call `save()`
return the updated record explicitly.
-/

namespace Libsys

/-- The role choices of `users.models.User.ROLE_CHOICES`. -/
inductive Role
  | member
  | librarian
  | manager
  | admin
deriving DecidableEq, Repr

/-- The `ACCOUNT_LOCK_SETTINGS` configuration dictionary read by the lockout
methods of `users.models.User`, with the fallback defaults hard-coded there. -/
structure LockSettings where
  MAX_FAILED_ATTEMPTS : Nat
  LOCK_DURATION_MINUTES : Nat
  AFFECTED_USER_ROLES : List Role
  WARNING_THRESHOLD : Nat
deriving DecidableEq, Repr

/-- The defaults used in `users/models.py` when the settings dict has no
entry: MAX_FAILED_ATTEMPTS 5, LOCK_DURATION_MINUTES 5, affected roles
[member], WARNING_THRESHOLD 3. -/
def defaultLockSettings : LockSettings :=
  { MAX_FAILED_ATTEMPTS := 5
    LOCK_DURATION_MINUTES := 5
    AFFECTED_USER_ROLES := [Role.member]
    WARNING_THRESHOLD := 3 }

/-- The lockout- and password-policy-relevant fields of `users.models.User`.
Timestamps are seconds. -/
structure User where
  role : Role
  failed_login_attempts : Nat
  account_locked_until : Option Int
  last_failed_attempt : Option Int
  last_password_change : Option Int
  password_change_required : Bool
deriving DecidableEq, Repr

namespace User

/-- `User.is_account_locked` (users/models.py:82-93).  Returns the boolean
result together with the possibly auto-unlocked record (the Python method
mutates `self` and saves when the lock has expired). -/
def is_account_locked (u : User) (now : Int) : Bool × User :=
  match u.account_locked_until with
  | some t =>
      if now < t then (true, u)
      else (false, { u with account_locked_until := none, failed_login_attempts := 0 })
  | none => (false, u)

/-- `User.should_show_warning` (users/models.py:101-105). -/
def should_show_warning (s : LockSettings) (u : User) : Bool :=
  decide (s.WARNING_THRESHOLD ≤ u.failed_login_attempts)

/-- `User.increment_failed_attempts` (users/models.py:107-124): a no-op for
roles outside `AFFECTED_USER_ROLES`; otherwise the attempt counter is
incremented and `last_failed_attempt` set to now, and when the new count has
reached `MAX_FAILED_ATTEMPTS` the account is locked until
now + `LOCK_DURATION_MINUTES`. -/
def increment_failed_attempts (s : LockSettings) (u : User) (now : Int) : User :=
  if u.role ∈ s.AFFECTED_USER_ROLES then
    if s.MAX_FAILED_ATTEMPTS ≤ u.failed_login_attempts + 1 then
      { u with
        failed_login_attempts := u.failed_login_attempts + 1
        last_failed_attempt := some now
        account_locked_until := some (now + 60 * (s.LOCK_DURATION_MINUTES : Int)) }
    else
      { u with
        failed_login_attempts := u.failed_login_attempts + 1
        last_failed_attempt := some now }
  else u

/-- A sequence of consecutive failed-attempt recordings, one
`increment_failed_attempts` call per timestamp in the list, in order. -/
def apply_failed_attempts (s : LockSettings) (u : User) (ts : List Int) : User :=
  ts.foldl (fun acc t => increment_failed_attempts s acc t) u

/-- `User.reset_lock_status` (users/models.py:126-130). -/
def reset_lock_status (u : User) : User :=
  { u with account_locked_until := none, failed_login_attempts := 0 }

/-- `User.is_password_expired` (users/models.py:145-156): only admin/manager
passwords expire; no recorded change counts as expired; otherwise expired
once 180 days have passed. -/
def is_password_expired (u : User) (now : Int) : Bool :=
  if u.role ≠ Role.admin ∧ u.role ≠ Role.manager then false
  else
    match u.last_password_change with
    | none => true
    | some t => decide (t + 180 * 86400 < now)

/-- `User.should_force_password_change` (users/models.py:158-180).
`adminLoginTime` is the `admin_login_time` value in the request session;
`none` covers both "no request supplied" and "no login time recorded",
which the Python code treats identically (both return True when a change
is due). -/
def should_force_password_change (u : User) (adminLoginTime : Option Int) (now : Int) : Bool :=
  if u.role ≠ Role.admin then
    u.password_change_required || u.is_password_expired now
  else if ¬(u.password_change_required || u.is_password_expired now) then false
  else
    match adminLoginTime with
    | some loginTime => decide (loginTime + 60 ≤ now)
    | none => true

/-- `User.get_password_change_remaining_seconds` (users/models.py:182-195). -/
def get_password_change_remaining_seconds (u : User) (adminLoginTime : Option Int) (now : Int) : Int :=
  if u.role ≠ Role.admin then 0
  else
    match adminLoginTime with
    | some loginTime => max 0 (loginTime + 60 - now)
    | none => 0

end User

/-! ### Fine calculator (`fines/models.py`) -/

/-- `Fine.calculate_overdue_fine` (fines/models.py:35-75) with the hard-coded
fallback tier configuration (tier 1: days 1-3 at 2.00/day, tier 2: days 4-7 at
5.00/day, tier 3: 8+ days at 10.00/day).  Currency is modelled as ℚ. -/
def calculate_overdue_fine (days_overdue : Int) : ℚ :=
  if days_overdue ≤ 0 then 0
  else
    let tier_1_days : Int := 3
    let tier_1_rate : ℚ := 2
    let tier_2_days : Int := 7
    let tier_2_rate : ℚ := 5
    let tier_3_rate : ℚ := 10
    if days_overdue ≤ tier_1_days then
      tier_1_rate * (days_overdue : ℚ)
    else if days_overdue ≤ tier_2_days then
      tier_1_rate * (tier_1_days : ℚ) + tier_2_rate * ((days_overdue - tier_1_days : Int) : ℚ)
    else
      tier_1_rate * (tier_1_days : ℚ) +
        tier_2_rate * ((tier_2_days - tier_1_days : Int) : ℚ) +
        tier_3_rate * ((days_overdue - tier_2_days : Int) : ℚ)

/-- `Fine.calculate_damaged_fine` (fines/models.py:77-89) with the fallback
processing fee of 50.00. -/
def calculate_damaged_fine (book_price : ℚ) : ℚ :=
  book_price + 50

/-! ### Session timeout middleware (`admin_dashboard/middleware.py`) -/

/-- Result of the per-request inactivity check. -/
inductive CheckResult
  | Valid
  | TimedOut
deriving DecidableEq, Repr

/-- Observable outcome of one pass through
`SessionTimeoutMiddleware.__call__` (admin_dashboard/middleware.py:18-44)
for an authenticated request: the verdict, the session's `last_activity`
afterwards, and whether the three timeout side effects happened. -/
structure MiddlewareOutcome where
  result : CheckResult
  last_activity : Option Int
  logged_out : Bool
  audited_session_timeout : Bool
  redirected_to_login : Bool
deriving DecidableEq, Repr

/-- `SessionTimeoutMiddleware.__call__` (admin_dashboard/middleware.py:18-44),
for an authenticated user with a resolved `timeout_minutes`.  The session
times out when `now - last_activity > timeout_minutes` (strict); on timeout
the request is logged out, a SESSION_TIMEOUT audit record is written and the
user is redirected to the login page; otherwise `last_activity` is advanced
to `now` and the request proceeds. -/
def session_timeout_check (timeout_minutes : Nat) (last_activity : Option Int)
    (now : Int) : MiddlewareOutcome :=
  match last_activity with
  | some la =>
      if 60 * (timeout_minutes : Int) < now - la then
        { result := CheckResult.TimedOut
          last_activity := some la
          logged_out := true
          audited_session_timeout := true
          redirected_to_login := true }
      else
        { result := CheckResult.Valid
          last_activity := some now
          logged_out := false
          audited_session_timeout := false
          redirected_to_login := false }
  | none =>
      { result := CheckResult.Valid
        last_activity := some now
        logged_out := false
        audited_session_timeout := false
        redirected_to_login := false }

/-! ### Borrowing workflow (`borrow/models.py`, `borrow/views.py`) -/

/-- `Borrowing.STATUS_CHOICES` (borrow/models.py:9-17). -/
inductive BStatus
  | pending
  | approved
  | rejected
  | borrowed
  | returned
  | overdue
  | expired
deriving DecidableEq, Repr

/-- The workflow-relevant fields of `borrow.models.Borrowing`.  `due_date`,
`borrow_date` are day numbers (Django DateField); `approved_date` and
`pickup_date` are timestamps in seconds (DateTimeField). -/
structure Borrowing where
  id : Nat
  userId : Nat
  bookId : Nat
  status : BStatus
  borrow_date : Int
  due_date : Int
  pickup_code : Option String
  approved_date : Option Int
  pickup_date : Option Int
deriving DecidableEq, Repr

namespace Borrowing

/-- `Borrowing.is_code_expired` (borrow/models.py:45-50): false when the
borrowing was never approved, otherwise true once `now` is strictly past
`approved_date` plus 3 days.  Pure: no state change. -/
def is_code_expired (b : Borrowing) (now : Int) : Bool :=
  match b.approved_date with
  | none => false
  | some ad => decide (ad + 3 * 86400 < now)

end Borrowing

/-- Day number of a timestamp: Python `datetime.date()` truncates a timestamp
to its calendar day, i.e. floor division of the epoch seconds by 86400. -/
def dateOf (t : Int) : Int := Int.fdiv t 86400

/-- The availability check inside `approve_borrowing_request`
(borrow/views.py:307-311): whether some *other* Borrowing of the same book
is in status borrowed or overdue. -/
def book_unavailable (db : List Borrowing) (b : Borrowing) : Bool :=
  db.any fun o =>
    o.bookId == b.bookId &&
    (o.status == BStatus.borrowed || o.status == BStatus.overdue) &&
    o.id != b.id

/-- Outcome of an approval attempt: the user-facing error message, if any,
and the borrowing record as it stands afterwards. -/
structure ApproveOutcome where
  error : Option String
  borrowing : Borrowing
deriving DecidableEq, Repr

/-- `approve_borrowing_request` (borrow/views.py:294-324), past the role
check: a non-pending borrowing is rejected, then a borrowing whose book has
another active (borrowed/overdue) loan is rejected, each with its own
message and no field change; otherwise the pickup code (produced by
`generate_pickup_code`, supplied here as `code`) is stored, the status set
to approved and `approved_date` to now. -/
def approve_borrowing_request (db : List Borrowing) (b : Borrowing)
    (code : String) (now : Int) : ApproveOutcome :=
  if b.status ≠ BStatus.pending then
    { error := some "Only pending requests can be approved.", borrowing := b }
  else if book_unavailable db b then
    { error := some "This book is currently borrowed by someone else.", borrowing := b }
  else
    { error := none
      borrowing := { b with
        status := BStatus.approved
        pickup_code := some code
        approved_date := some now } }

/-- Outcome of a pickup-code entry: the user-facing error message, if any,
and the borrowing record afterwards. -/
structure PickupOutcome where
  error : Option String
  borrowing : Borrowing
deriving DecidableEq, Repr

/-- The core of `pickup_code_entry` (borrow/views.py:373-397) once a
Borrowing with the entered code and status approved has been found
(`Borrowing.objects.get(pickup_code=..., status='approved')`): an expired
code marks the borrowing expired; otherwise the borrowing becomes borrowed,
`due_date` is the pickup day plus the member's `loan_period_days`,
`pickup_date` is now, `borrow_date` is the pickup day, and the code is
cleared. -/
def pickup_code_entry (b : Borrowing) (loan_period_days : Nat) (now : Int) : PickupOutcome :=
  if b.is_code_expired now then
    { error := some "This pickup code has expired."
      borrowing := { b with status := BStatus.expired } }
  else
    { error := none
      borrowing := { b with
        status := BStatus.borrowed
        due_date := dateOf now + (loan_period_days : Int)
        pickup_date := some now
        borrow_date := dateOf now
        pickup_code := none } }

/-! ### Pickup-code generation (`borrow/models.py:36-43`) -/

/-- The sampling alphabet `string.ascii_uppercase + string.digits`. -/
def pickup_code_alphabet : List Char :=
  "ABCDEFGHIJKLMNOPQRSTUVWXYZ0123456789".toList

/-- One call of `random.choices(string.ascii_uppercase + string.digits, k=10)`:
a draw is the list of 10 sampled alphabet indices, turned into the string. -/
def codeOfDraw (draw : List (Fin 36)) : String :=
  String.mk (draw.map fun i => pickup_code_alphabet.getD i.val 'A')

/-- `Borrowing.generate_pickup_code` (borrow/models.py:36-43): rejection
sampling until the sampled code matches no existing `pickup_code`.  The
unbounded `while True` loop is driven here by the explicit list of random
draws it consumes; `none` means the supplied draws were exhausted before a
fresh code appeared. -/
def generate_pickup_code (existing : List String) : List (List (Fin 36)) → Option String
  | [] => none
  | draw :: rest =>
      let code := codeOfDraw draw
      if code ∈ existing then generate_pickup_code existing rest
      else some code

/-- Sequential code generation across several approvals, as the approval
endpoint performs it: each generated code is stored on its Borrowing and is
therefore part of the existing codes the next generation checks against.
Returns the codes in generation order. -/
def generate_pickup_codes (existing : List String) :
    List (List (List (Fin 36))) → Option (List String)
  | [] => some []
  | draws :: rest =>
      match generate_pickup_code existing draws with
      | none => none
      | some code =>
          match generate_pickup_codes (code :: existing) rest with
          | none => none
          | some codes => some (code :: codes)

/-! ### Concrete records used to instantiate the theorems below -/

/-- A member account locked until time 5 (used to instantiate the
lazy-unlock theorem at check time 10). -/
def u_lock_expired : User :=
  { role := Role.member
    failed_login_attempts := 5
    account_locked_until := some 5
    last_failed_attempt := some 4
    last_password_change := none
    password_change_required := false }

/-- A member account currently locked (until time 1000) with 5 failed
attempts. -/
def u_locked_warn : User :=
  { role := Role.member
    failed_login_attempts := 5
    account_locked_until := some 1000
    last_failed_attempt := some 0
    last_password_change := none
    password_change_required := false }

/-- An admin account whose password change is required. -/
def u_admin_due : User :=
  { role := Role.admin
    failed_login_attempts := 0
    account_locked_until := none
    last_failed_attempt := none
    last_password_change := none
    password_change_required := true }

/-- A fresh member account with no failed attempts and no lock. -/
def u_fresh_member : User :=
  { role := Role.member
    failed_login_attempts := 0
    account_locked_until := none
    last_failed_attempt := none
    last_password_change := none
    password_change_required := false }

/-- A pending borrowing request (never approved). -/
def b_pending : Borrowing :=
  { id := 1
    userId := 1
    bookId := 1
    status := BStatus.pending
    borrow_date := 0
    due_date := 14
    pickup_code := none
    approved_date := none
    pickup_date := none }

/-- A borrowing already approved at time 100 with a pickup code. -/
def b_approved : Borrowing :=
  { id := 2
    userId := 1
    bookId := 7
    status := BStatus.approved
    borrow_date := 0
    due_date := 14
    pickup_code := some "QWERTYUIO1"
    approved_date := some 100
    pickup_date := none }

/-! ## Theorems -/

/-- C2: an account whose `account_locked_until` lies in the past is reported
unlocked by `is_account_locked`, which as a side effect clears the lock and
resets `failed_login_attempts` to 0; an immediate second call also returns
false and changes nothing. -/
theorem lazy_unlock_on_expired_lock (u : User) (t now : Int)
    (hset : u.account_locked_until = some t) (hpast : t < now) :
    (u.is_account_locked now).1 = false ∧
    (u.is_account_locked now).2.account_locked_until = none ∧
    (u.is_account_locked now).2.failed_login_attempts = 0 ∧
    ((u.is_account_locked now).2.is_account_locked now).1 = false ∧
    ((u.is_account_locked now).2.is_account_locked now).2 = (u.is_account_locked now).2 := by
  have hnl : ¬ now < t := by omega
  simp [User.is_account_locked, hset, hnl]

theorem lazy_unlock_on_expired_lock_witness :
    (u_lock_expired.is_account_locked 10).1 = false ∧
    (u_lock_expired.is_account_locked 10).2.account_locked_until = none ∧
    (u_lock_expired.is_account_locked 10).2.failed_login_attempts = 0 ∧
    ((u_lock_expired.is_account_locked 10).2.is_account_locked 10).1 = false ∧
    ((u_lock_expired.is_account_locked 10).2.is_account_locked 10).2 =
      (u_lock_expired.is_account_locked 10).2 :=
  lazy_unlock_on_expired_lock u_lock_expired 5 10 rfl (by norm_num)

/-- C3: the overdue fine is 0 for non-positive `days_overdue` and otherwise
the sum over the inclusive tier bands the overdue count spans (days 1-3 at
2.00/day, days 4-7 at 5.00/day, days 8+ at 10.00/day); in particular the
fine for 3, 7 and 10 days overdue is 6.00, 26.00 and 56.00. -/
theorem overdue_fine_tiered (d : Int) :
    (d ≤ 0 → calculate_overdue_fine d = 0) ∧
    (0 < d →
      calculate_overdue_fine d =
        ((2 * min d 3 + 5 * (min d 7 - min d 3) + 10 * (d - min d 7) : Int) : ℚ)) ∧
    calculate_overdue_fine 3 = 6 ∧
    calculate_overdue_fine 7 = 26 ∧
    calculate_overdue_fine 10 = 56 := by
  refine ⟨?_, ?_, by norm_num [calculate_overdue_fine],
    by norm_num [calculate_overdue_fine], by norm_num [calculate_overdue_fine]⟩
  · intro hd
    simp [calculate_overdue_fine, hd]
  · intro hd
    rcases le_or_lt d 3 with h3 | h3
    · have hmin3 : min d 3 = d := min_eq_left h3
      have hmin7 : min d 7 = d := min_eq_left (by omega)
      have hnp : ¬ d ≤ 0 := by omega
      simp only [calculate_overdue_fine, hnp, if_false, h3, if_true, hmin3, hmin7]
      push_cast
      ring
    · rcases le_or_lt d 7 with h7 | h7
      · have hmin3 : min d 3 = 3 := min_eq_right (by omega)
        have hmin7 : min d 7 = d := min_eq_left h7
        have hnp : ¬ d ≤ 0 := by omega
        have hn3 : ¬ d ≤ 3 := by omega
        simp only [calculate_overdue_fine, hnp, if_false, hn3, h7, if_true]
        rw [hmin3, hmin7]
        push_cast
        ring
      · have hmin3 : min d 3 = 3 := min_eq_right (by omega)
        have hmin7 : min d 7 = 7 := min_eq_right (by omega)
        have hnp : ¬ d ≤ 0 := by omega
        have hn3 : ¬ d ≤ 3 := by omega
        have hn7 : ¬ d ≤ 7 := by omega
        simp only [calculate_overdue_fine, hnp, if_false, hn3, hn7]
        rw [hmin3, hmin7]
        push_cast
        ring

theorem overdue_fine_tiered_witness :
    calculate_overdue_fine (-4) = 0 ∧
    calculate_overdue_fine 5 =
      ((2 * min 5 3 + 5 * (min 5 7 - min 5 3) + 10 * (5 - min 5 7) : Int) : ℚ) ∧
    calculate_overdue_fine 10 = 56 :=
  ⟨(overdue_fine_tiered (-4)).1 (by norm_num),
   (overdue_fine_tiered 5).2.1 (by norm_num),
   (overdue_fine_tiered 10).2.2.2.2⟩

/-- C4: with a 15-minute timeout, a request 14 minutes after `last_activity`
is Valid and advances `last_activity` to now with no logout, audit or
redirect; a request 16 minutes after `last_activity` is TimedOut, logs the
user out, writes a SESSION_TIMEOUT audit record, redirects to login, and
does not advance `last_activity`. -/
theorem session_timeout_boundaries (la : Int) :
    session_timeout_check 15 (some la) (la + 14 * 60) =
      { result := CheckResult.Valid
        last_activity := some (la + 14 * 60)
        logged_out := false
        audited_session_timeout := false
        redirected_to_login := false } ∧
    session_timeout_check 15 (some la) (la + 16 * 60) =
      { result := CheckResult.TimedOut
        last_activity := some la
        logged_out := true
        audited_session_timeout := true
        redirected_to_login := true } := by
  constructor <;> simp [session_timeout_check]

theorem session_timeout_boundaries_witness :
    session_timeout_check 15 (some 1000) (1000 + 14 * 60) =
      { result := CheckResult.Valid
        last_activity := some (1000 + 14 * 60)
        logged_out := false
        audited_session_timeout := false
        redirected_to_login := false } ∧
    session_timeout_check 15 (some 1000) (1000 + 16 * 60) =
      { result := CheckResult.TimedOut
        last_activity := some 1000
        logged_out := true
        audited_session_timeout := true
        redirected_to_login := true } :=
  session_timeout_boundaries 1000

/-- C8 counterexample: a member account currently locked (locked until time
1000, checked at time 0) with 5 failed attempts — `should_show_warning`
returns true for it, not false as the claim requires for locked accounts. -/
theorem warning_shown_while_locked :
    (u_locked_warn.is_account_locked 0).1 = true ∧
    User.should_show_warning defaultLockSettings u_locked_warn = true := by
  constructor
  · simp [User.is_account_locked, u_locked_warn]
  · decide

/-- C8 (amended): `should_show_warning` returns true exactly when
`failed_login_attempts` has reached the warning threshold; it is independent
of the lock state (the not-locked check is performed by the caller, not by
this method). -/
theorem warning_threshold_only (s : LockSettings) (u : User) :
    (User.should_show_warning s u = true ↔
      s.WARNING_THRESHOLD ≤ u.failed_login_attempts) ∧
    (∀ lu : Option Int,
      User.should_show_warning s { u with account_locked_until := lu } =
        User.should_show_warning s u) := by
  constructor
  · simp [User.should_show_warning]
  · intro lu
    simp [User.should_show_warning]

theorem warning_threshold_only_witness :
    User.should_show_warning defaultLockSettings u_locked_warn = true ↔
      defaultLockSettings.WARNING_THRESHOLD ≤ u_locked_warn.failed_login_attempts :=
  (warning_threshold_only defaultLockSettings u_locked_warn).1

/-- C10: a Borrowing that was never approved (`approved_date` unset) is
never reported as having an expired pickup code; `is_code_expired` is pure,
so no state change occurs. -/
theorem unapproved_code_never_expired (b : Borrowing) (now : Int)
    (h : b.approved_date = none) :
    b.is_code_expired now = false := by
  simp [Borrowing.is_code_expired, h]

theorem unapproved_code_never_expired_witness :
    b_pending.is_code_expired 123456 = false :=
  unapproved_code_never_expired b_pending 123456 rfl

/-- C7: `should_force_password_change` equals flag-or-expired for non-admin
roles; for an admin with a recorded session login time it is suppressed
(false) while less than a minute has passed since login and holds (true)
once the minute has elapsed, provided a change is due;
`get_password_change_remaining_seconds` is non-negative, equals the seconds
left in the window while it is open, and is 0 once it has elapsed. -/
theorem force_password_change_grace :
    (∀ (u : User) (s : Option Int) (now : Int), u.role ≠ Role.admin →
      u.should_force_password_change s now =
        (u.password_change_required || u.is_password_expired now)) ∧
    (∀ (u : User) (loginTime now : Int), u.role = Role.admin →
      (u.password_change_required || u.is_password_expired now) = true →
      now < loginTime + 60 →
      u.should_force_password_change (some loginTime) now = false) ∧
    (∀ (u : User) (loginTime now : Int), u.role = Role.admin →
      (u.password_change_required || u.is_password_expired now) = true →
      loginTime + 60 ≤ now →
      u.should_force_password_change (some loginTime) now = true) ∧
    (∀ (u : User) (loginTime now : Int), u.role = Role.admin →
      0 ≤ u.get_password_change_remaining_seconds (some loginTime) now ∧
      (loginTime + 60 ≤ now →
        u.get_password_change_remaining_seconds (some loginTime) now = 0) ∧
      (now ≤ loginTime + 60 →
        u.get_password_change_remaining_seconds (some loginTime) now =
          loginTime + 60 - now)) := by
  refine ⟨?_, ?_, ?_, ?_⟩
  · intro u s now hrole
    simp [User.should_force_password_change, hrole]
  · intro u lt now hrole hdue hlt
    simp [User.should_force_password_change, hrole, hdue]
    omega
  · intro u lt now hrole hdue hge
    simp [User.should_force_password_change, hrole, hdue]
    omega
  · intro u lt now hrole
    refine ⟨?_, ?_, ?_⟩
    · simp [User.get_password_change_remaining_seconds, hrole]
    · intro h
      simp [User.get_password_change_remaining_seconds, hrole]
      omega
    · intro h
      simp [User.get_password_change_remaining_seconds, hrole]
      omega

theorem force_password_change_grace_witness :
    u_admin_due.should_force_password_change (some 0) 30 = false :=
  force_password_change_grace.2.1 u_admin_due 0 30 rfl (by decide) (by norm_num)

/-- C5: approval succeeds exactly when the request is pending and no other
Borrowing of the same book is borrowed or overdue; a non-pending request
and an unavailable book each fail with their own distinct user-facing
message and leave the Borrowing unchanged. -/
theorem approve_requires_pending_and_available :
    (∀ (db : List Borrowing) (b : Borrowing) (code : String) (now : Int),
      (approve_borrowing_request db b code now).error = none ↔
        (b.status = BStatus.pending ∧ book_unavailable db b = false)) ∧
    (∀ (db : List Borrowing) (b : Borrowing),
      book_unavailable db b = true ↔
        ∃ o ∈ db, o.bookId = b.bookId ∧
          (o.status = BStatus.borrowed ∨ o.status = BStatus.overdue) ∧ o.id ≠ b.id) ∧
    (∀ (db : List Borrowing) (b : Borrowing) (code : String) (now : Int),
      b.status ≠ BStatus.pending →
      approve_borrowing_request db b code now =
        { error := some "Only pending requests can be approved.", borrowing := b }) ∧
    (∀ (db : List Borrowing) (b : Borrowing) (code : String) (now : Int),
      b.status = BStatus.pending → book_unavailable db b = true →
      approve_borrowing_request db b code now =
        { error := some "This book is currently borrowed by someone else.",
          borrowing := b }) ∧
    ("Only pending requests can be approved." ≠
      "This book is currently borrowed by someone else.") := by
  refine ⟨?_, ?_, ?_, ?_, by decide⟩
  · intro db b code now
    by_cases hp : b.status = BStatus.pending
    · by_cases ha : book_unavailable db b
      · simp [approve_borrowing_request, hp, ha]
      · simp [approve_borrowing_request, hp, ha]
    · simp [approve_borrowing_request, hp]
  · intro db b
    simp only [book_unavailable, List.any_eq_true, Bool.and_eq_true, Bool.or_eq_true,
      beq_iff_eq, bne_iff_ne, ne_eq]
    constructor
    · rintro ⟨o, ho, ⟨hbk, hst⟩, hid⟩
      exact ⟨o, ho, hbk, hst, hid⟩
    · rintro ⟨o, ho, hbk, hst, hid⟩
      exact ⟨o, ho, ⟨hbk, hst⟩, hid⟩
  · intro db b code now hp
    simp [approve_borrowing_request, hp]
  · intro db b code now hp ha
    simp [approve_borrowing_request, hp, ha]

theorem approve_requires_pending_and_available_witness :
    approve_borrowing_request [b_approved] b_approved "AB12CD34EF" 200 =
      { error := some "Only pending requests can be approved.",
        borrowing := b_approved } :=
  approve_requires_pending_and_available.2.2.1 [b_approved] b_approved
    "AB12CD34EF" 200 (by decide)

/-- C6: entering a pickup code that matches an approved Borrowing whose
code has not expired completes the loan: status becomes borrowed, the due
date is the pickup day plus the member's loan period, and the pickup code
is cleared. -/
theorem pickup_completes_borrowing (b : Borrowing) (loan_period_days : Nat) (now : Int)
    (_happroved : b.status = BStatus.approved)
    (hfresh : b.is_code_expired now = false) :
    (pickup_code_entry b loan_period_days now).error = none ∧
    (pickup_code_entry b loan_period_days now).borrowing.status = BStatus.borrowed ∧
    (pickup_code_entry b loan_period_days now).borrowing.due_date =
      dateOf now + (loan_period_days : Int) ∧
    (pickup_code_entry b loan_period_days now).borrowing.pickup_code = none := by
  simp [pickup_code_entry, hfresh]

/-- Recording a failed attempt never changes the account's role. -/
theorem increment_failed_attempts_role (s : LockSettings) (u : User) (t : Int) :
    (User.increment_failed_attempts s u t).role = u.role := by
  unfold User.increment_failed_attempts
  split
  · split <;> rfl
  · rfl

/-- For an affected role, recording a failed attempt increments the counter. -/
theorem increment_failed_attempts_count (s : LockSettings) (u : User) (t : Int)
    (h : u.role ∈ s.AFFECTED_USER_ROLES) :
    (User.increment_failed_attempts s u t).failed_login_attempts =
      u.failed_login_attempts + 1 := by
  unfold User.increment_failed_attempts
  simp only [h, if_true]
  split <;> rfl

/-- A sequence of failed attempts never changes the role. -/
theorem apply_failed_attempts_role (s : LockSettings) (ts : List Int) :
    ∀ u : User, (User.apply_failed_attempts s u ts).role = u.role := by
  induction ts with
  | nil => intro u; rfl
  | cons t rest ih =>
      intro u
      show (User.apply_failed_attempts s (User.increment_failed_attempts s u t) rest).role = u.role
      rw [ih, increment_failed_attempts_role]

/-- For an affected role, a sequence of failed attempts adds its length to
the counter. -/
theorem apply_failed_attempts_count (s : LockSettings) (ts : List Int) :
    ∀ u : User, u.role ∈ s.AFFECTED_USER_ROLES →
      (User.apply_failed_attempts s u ts).failed_login_attempts =
        u.failed_login_attempts + ts.length := by
  induction ts with
  | nil => intro u _; rfl
  | cons t rest ih =>
      intro u h
      have hrole : (User.increment_failed_attempts s u t).role ∈ s.AFFECTED_USER_ROLES := by
        rw [increment_failed_attempts_role]; exact h
      show (User.apply_failed_attempts s (User.increment_failed_attempts s u t)
          rest).failed_login_attempts = u.failed_login_attempts + (rest.length + 1)
      rw [ih _ hrole, increment_failed_attempts_count s u t h]
      omega

/-- For an affected role, once the attempt count reaches the configured
maximum, the last recording call sets the lock to its own time plus the
configured duration. -/
theorem apply_failed_attempts_locks (s : LockSettings) (u : User) (ts : List Int) (t : Int)
    (hrole : u.role ∈ s.AFFECTED_USER_ROLES)
    (hmax : s.MAX_FAILED_ATTEMPTS ≤ u.failed_login_attempts + ts.length + 1) :
    (User.apply_failed_attempts s u (ts ++ [t])).account_locked_until =
      some (t + 60 * (s.LOCK_DURATION_MINUTES : Int)) := by
  have happ : User.apply_failed_attempts s u (ts ++ [t]) =
      User.increment_failed_attempts s (User.apply_failed_attempts s u ts) t := by
    unfold User.apply_failed_attempts
    rw [List.foldl_append]
    rfl
  rw [happ]
  have hr : (User.apply_failed_attempts s u ts).role ∈ s.AFFECTED_USER_ROLES := by
    rw [apply_failed_attempts_role]; exact hrole
  have hc : s.MAX_FAILED_ATTEMPTS ≤
      (User.apply_failed_attempts s u ts).failed_login_attempts + 1 := by
    rw [apply_failed_attempts_count s ts u hrole]; omega
  unfold User.increment_failed_attempts
  simp only [hr, if_true, hc]

/-- A user whose `account_locked_until` lies in the future is reported
locked. -/
theorem is_account_locked_of_future (u : User) (T now : Int)
    (hset : u.account_locked_until = some T) (hlt : now < T) :
    (u.is_account_locked now).1 = true := by
  simp [User.is_account_locked, hset, hlt]

/-- C1: for an account whose role is in the configured affected-roles set,
starting from 0 failed attempts, exactly MAX_FAILED_ATTEMPTS consecutive
`increment_failed_attempts` calls (the last at time t5) set
`account_locked_until` to t5 + LOCK_DURATION, and `is_account_locked` is
true at any time before that; one further failed attempt (at time t6)
leaves the account locked — the lock now ends at t6 + LOCK_DURATION and
`is_account_locked` is still true at any time before that. -/
theorem lockout_after_max_attempts (s : LockSettings) (u : User) (ts : List Int)
    (t5 t6 : Int)
    (hrole : u.role ∈ s.AFFECTED_USER_ROLES)
    (hfresh : u.failed_login_attempts = 0)
    (hcount : ts.length + 1 = s.MAX_FAILED_ATTEMPTS) :
    (User.apply_failed_attempts s u (ts ++ [t5])).account_locked_until =
      some (t5 + 60 * (s.LOCK_DURATION_MINUTES : Int)) ∧
    (∀ now : Int, now < t5 + 60 * (s.LOCK_DURATION_MINUTES : Int) →
      ((User.apply_failed_attempts s u (ts ++ [t5])).is_account_locked now).1 = true) ∧
    (User.apply_failed_attempts s u (ts ++ [t5] ++ [t6])).account_locked_until =
      some (t6 + 60 * (s.LOCK_DURATION_MINUTES : Int)) ∧
    (∀ now : Int, now < t6 + 60 * (s.LOCK_DURATION_MINUTES : Int) →
      ((User.apply_failed_attempts s u (ts ++ [t5] ++ [t6])).is_account_locked now).1
        = true) := by
  have h5 : (User.apply_failed_attempts s u (ts ++ [t5])).account_locked_until =
      some (t5 + 60 * (s.LOCK_DURATION_MINUTES : Int)) :=
    apply_failed_attempts_locks s u ts t5 hrole (by omega)
  have h6 : (User.apply_failed_attempts s u (ts ++ [t5] ++ [t6])).account_locked_until =
      some (t6 + 60 * (s.LOCK_DURATION_MINUTES : Int)) :=
    apply_failed_attempts_locks s u (ts ++ [t5]) t6 hrole
      (by simp only [List.length_append, List.length_cons, List.length_nil]; omega)
  exact ⟨h5,
    fun now hn => is_account_locked_of_future _ _ now h5 hn,
    h6,
    fun now hn => is_account_locked_of_future _ _ now h6 hn⟩

theorem lockout_after_max_attempts_witness :
    ((User.apply_failed_attempts defaultLockSettings u_fresh_member
        ([10, 20, 30, 40] ++ [50])).is_account_locked 100).1 = true :=
  (lockout_after_max_attempts defaultLockSettings u_fresh_member [10, 20, 30, 40]
    50 60 (by decide) rfl (by decide)).2.1 100 (by norm_num [defaultLockSettings])

theorem pickup_completes_borrowing_witness :
    (pickup_code_entry b_approved 14 200).error = none ∧
    (pickup_code_entry b_approved 14 200).borrowing.status = BStatus.borrowed ∧
    (pickup_code_entry b_approved 14 200).borrowing.due_date =
      dateOf 200 + (14 : Int) ∧
    (pickup_code_entry b_approved 14 200).borrowing.pickup_code = none :=
  pickup_completes_borrowing b_approved 14 200 rfl (by decide)

/-- A sampled code has one character per sampled index. -/
theorem codeOfDraw_length (d : List (Fin 36)) : (codeOfDraw d).length = d.length := by
  simp [codeOfDraw, String.length]

/-- Every character of a sampled code belongs to the sampling alphabet. -/
theorem codeOfDraw_chars (d : List (Fin 36)) :
    ∀ c ∈ (codeOfDraw d).data, c ∈ pickup_code_alphabet := by
  have hall : ∀ i : Fin 36, pickup_code_alphabet.getD i.val 'A' ∈ pickup_code_alphabet := by
    decide
  intro c hc
  rw [show (codeOfDraw d).data = d.map (fun i => pickup_code_alphabet.getD i.val 'A')
    from rfl] at hc
  obtain ⟨i, _, rfl⟩ := List.mem_map.mp hc
  exact hall i

/-- Rejection sampling returns a code that is not among the existing codes
and came from one of the supplied draws. -/
theorem generate_pickup_code_sound (existing : List String) :
    ∀ (draws : List (List (Fin 36))) (code : String),
      generate_pickup_code existing draws = some code →
      code ∉ existing ∧ ∃ d ∈ draws, code = codeOfDraw d := by
  intro draws
  induction draws with
  | nil =>
      intro code h
      simp [generate_pickup_code] at h
  | cons d rest ih =>
      intro code h
      by_cases hmem : codeOfDraw d ∈ existing
      · rw [generate_pickup_code] at h
        simp only [hmem, if_true] at h
        obtain ⟨hnot, d', hd', heq⟩ := ih code h
        exact ⟨hnot, d', List.mem_cons_of_mem _ hd', heq⟩
      · rw [generate_pickup_code] at h
        simp only [hmem, if_false, Option.some.injEq] at h
        subst h
        exact ⟨hmem, d, List.mem_cons_self _ _, rfl⟩

/-- Sequential generation yields pairwise-distinct codes, none of which was
already stored, each produced from one of its step's draws. -/
theorem generate_pickup_codes_sound :
    ∀ (dss : List (List (List (Fin 36)))) (existing codes : List String),
      generate_pickup_codes existing dss = some codes →
      codes.Nodup ∧ ∀ code ∈ codes,
        code ∉ existing ∧ ∃ ds ∈ dss, ∃ d ∈ ds, code = codeOfDraw d := by
  intro dss
  induction dss with
  | nil =>
      intro existing codes h
      simp only [generate_pickup_codes, Option.some.injEq] at h
      subst h
      simp
  | cons ds rest ih =>
      intro existing codes h
      rw [generate_pickup_codes] at h
      cases hg : generate_pickup_code existing ds with
      | none => rw [hg] at h; cases h
      | some code =>
          rw [hg] at h
          dsimp only at h
          cases hr : generate_pickup_codes (code :: existing) rest with
          | none => rw [hr] at h; cases h
          | some cs =>
              rw [hr] at h
              dsimp only at h
              simp only [Option.some.injEq] at h
              subst h
              obtain ⟨hnodup, hall⟩ := ih (code :: existing) cs hr
              obtain ⟨hfresh, d, hd, heq⟩ := generate_pickup_code_sound existing ds code hg
              refine ⟨?_, ?_⟩
              · refine List.nodup_cons.mpr ⟨?_, hnodup⟩
                intro hmem
                exact (hall code hmem).1 (List.mem_cons_self _ _)
              · intro x hx
                rcases List.mem_cons.mp hx with hx | hx
                · subst hx
                  exact ⟨hfresh, ds, List.mem_cons_self _ _, d, hd, heq⟩
                · obtain ⟨hxne, ds', hds', d', hd', heq'⟩ := hall x hx
                  refine ⟨fun hmem => hxne (List.mem_cons_of_mem _ hmem),
                    ds', List.mem_cons_of_mem _ hds', d', hd', heq'⟩

/-- C9: every code produced by the generator is exactly 10 characters from
the uppercase-alphanumeric alphabet and differs from every code already
stored at its generation time, so the codes of a whole run are pairwise
distinct; moreover every alphabet character is an uppercase letter or a
digit. -/
theorem pickup_codes_unique (existing : List String)
    (dss : List (List (List (Fin 36)))) (codes : List String)
    (hdraw : ∀ ds ∈ dss, ∀ d ∈ ds, d.length = 10)
    (hgen : generate_pickup_codes existing dss = some codes) :
    (∀ code ∈ codes, code.length = 10 ∧
      (∀ c ∈ code.data, c ∈ pickup_code_alphabet) ∧ code ∉ existing) ∧
    codes.Nodup ∧
    (∀ c ∈ pickup_code_alphabet, ('A' ≤ c ∧ c ≤ 'Z') ∨ ('0' ≤ c ∧ c ≤ '9')) := by
  obtain ⟨hnodup, hall⟩ := generate_pickup_codes_sound dss existing codes hgen
  refine ⟨?_, hnodup, by decide⟩
  intro code hcode
  obtain ⟨hfresh, ds, hds, d, hd, heq⟩ := hall code hcode
  subst heq
  exact ⟨by rw [codeOfDraw_length]; exact hdraw ds hds d hd,
    codeOfDraw_chars d, hfresh⟩

theorem pickup_codes_unique_witness :
    (["AAAAAAAAAA", "BBBBBBBBBB"] : List String).Nodup :=
  (pickup_codes_unique []
    [[List.replicate 10 (0 : Fin 36)], [List.replicate 10 (1 : Fin 36)]]
    ["AAAAAAAAAA", "BBBBBBBBBB"] (by decide) (by decide)).2.1

end Libsys
